import Mathlib

/-!
Verification of the deduction engine of `genotype.py` (multiplex genotyping).

A test record is a state token followed by sample identifiers (the Python
code indexes `test_set[0]` and `test_set[1:]`; records handed to the core by
the grouper are always non-empty, so a record is modelled as a pair of the
state token and the list of sample identifiers).  Sample identifiers are
opaque strings; Python `set`s of identifiers become `Finset String`.
-/

namespace Genotype

abbrev SampleId := String

/-- A test record: state token (`test_set[0]`) and sample ids (`test_set[1:]`). -/
abbrev Record := String × List SampleId

/-- Outcome of `process_experiment`: the Python function returns either
`(False, reason)` or `(True, [single_mutants, normal_samples])`. -/
inductive Result where
  | rejected (reason : String)
  | resolved (single_mutants normal_samples : Finset SampleId)
deriving DecidableEq

/-- `filter_mutants`: `[test_set - normal_samples for test_set in mutant_sample_sets]`. -/
def filter_mutants (mutant_sample_sets : List (Finset SampleId))
    (normal_samples : Finset SampleId) : List (Finset SampleId) :=
  mutant_sample_sets.map (fun test_set => test_set \ normal_samples)

/-- `get_single_mutants`: `set([next(iter(x)) for x in filtered_mutants if len(x) == 1])`.
The comprehension collects the sole element of each singleton set, i.e. the
union of those filtered sets whose size is exactly 1; the input sets are
read (`next(iter(x))`), never mutated. -/
def get_single_mutants (filtered_mutants : List (Finset SampleId)) : Finset SampleId :=
  (filtered_mutants.filter (fun x => x.card == 1)).foldr (fun x acc => x ∪ acc) ∅

/-- `check_unique`: returns `False` iff some filtered set still has more than
one element after removing the uniquely identified samples. -/
def check_unique (filtered_mutants : List (Finset SampleId))
    (single_mutants : Finset SampleId) : Bool :=
  filtered_mutants.all (fun test_set => (test_set \ single_mutants).card ≤ 1)

/-- `check_consistent`: returns `False` iff some filtered set has 0 elements. -/
def check_consistent (filtered_mutants : List (Finset SampleId)) : Bool :=
  filtered_mutants.all (fun test_set => test_set.card != 0)

/-- The `normal_samples` accumulator of `process_experiment`: starts empty and
is updated with the samples of each record whose state is `"NORM"` (the
Python loop dispatches on `state == "MUT"` / `elif state == "NORM"`; the two
accumulators never interact, so each is the fold of its own branch). -/
def normal_samples_of (experiment : List Record) : Finset SampleId :=
  experiment.foldl
    (fun acc test_set =>
      if test_set.1 = "NORM" then acc ∪ test_set.2.toFinset else acc) ∅

/-- The `mutant_sample_sets` accumulator of `process_experiment`: one
`set(samples)` appended per record whose state is `"MUT"`, in input order. -/
def mutant_sample_sets_of (experiment : List Record) : List (Finset SampleId) :=
  experiment.foldl
    (fun acc test_set =>
      if test_set.1 = "MUT" then acc ++ [test_set.2.toFinset] else acc) []

/-- `process_experiment`: partition the records, filter the mutant pools by
the normal set, extract single mutants, then run the two checks in order. -/
def process_experiment (experiment : List Record) : Result :=
  let normal_samples := normal_samples_of experiment
  let mutant_sample_sets := mutant_sample_sets_of experiment
  let filtered_mutants := filter_mutants mutant_sample_sets normal_samples
  let single_mutants := get_single_mutants filtered_mutants
  if check_unique filtered_mutants single_mutants = false then
    Result.rejected "NONUNIQUE"
  else if check_consistent filtered_mutants = false then
    Result.rejected "INCONSISTENT"
  else
    Result.resolved single_mutants normal_samples

/-- The sample universe of an experiment: every identifier appearing in a
record whose state is `"MUT"` or `"NORM"` (identifiers of records with any
other state token are ignored by the engine). -/
def allSamples (experiment : List Record) : Finset SampleId :=
  experiment.foldl
    (fun acc test_set =>
      if test_set.1 = "MUT" ∨ test_set.1 = "NORM" then acc ∪ test_set.2.toFinset
      else acc) ∅

/-- The union of the sample identifiers of all `"NORM"` records, written
directly as a union over the NORM records. -/
def normUnion (experiment : List Record) : Finset SampleId :=
  (experiment.filter (fun r => r.1 == "NORM")).foldr
    (fun r acc => r.2.toFinset ∪ acc) ∅

/-- The `filtered_mutants` intermediate of `process_experiment`. -/
def filtered_mutants_of (experiment : List Record) : List (Finset SampleId) :=
  filter_mutants (mutant_sample_sets_of experiment) (normal_samples_of experiment)

/-- The `single_mutants` intermediate of `process_experiment`. -/
def single_mutants_of (experiment : List Record) : Finset SampleId :=
  get_single_mutants (filtered_mutants_of experiment)

lemma process_experiment_def (e : List Record) :
    process_experiment e =
      if check_unique (filtered_mutants_of e) (single_mutants_of e) = false then
        Result.rejected "NONUNIQUE"
      else if check_consistent (filtered_mutants_of e) = false then
        Result.rejected "INCONSISTENT"
      else
        Result.resolved (single_mutants_of e) (normal_samples_of e) := rfl

lemma mem_foldr_union (l : List (Finset SampleId)) (x : SampleId) :
    x ∈ l.foldr (fun s acc => s ∪ acc) ∅ ↔ ∃ t ∈ l, x ∈ t := by
  induction l with
  | nil => simp
  | cons s l ih => simp [List.foldr_cons, ih]

lemma mem_get_single_mutants (l : List (Finset SampleId)) (x : SampleId) :
    x ∈ get_single_mutants l ↔ ∃ s ∈ l, s = {x} := by
  unfold get_single_mutants
  rw [mem_foldr_union]
  constructor
  · rintro ⟨t, ht, hx⟩
    rw [List.mem_filter] at ht
    refine ⟨t, ht.1, ?_⟩
    have hcard : t.card = 1 := by simpa using ht.2
    obtain ⟨a, rfl⟩ := Finset.card_eq_one.mp hcard
    have hxa : x = a := Finset.mem_singleton.mp hx
    subst hxa
    rfl
  · rintro ⟨t, htl, rfl⟩
    refine ⟨{x}, ?_, Finset.mem_singleton_self x⟩
    rw [List.mem_filter]
    exact ⟨htl, by simp⟩

lemma check_unique_eq_false_iff (f : List (Finset SampleId)) (s : Finset SampleId) :
    check_unique f s = false ↔ ∃ t ∈ f, 1 < (t \ s).card := by
  simp [check_unique, Nat.lt_iff_add_one_le, Nat.not_le]

lemma check_consistent_eq_false_iff (f : List (Finset SampleId)) :
    check_consistent f = false ↔ ∃ t ∈ f, t = ∅ := by
  simp [check_consistent, Finset.card_eq_zero]

lemma process_eq_nonunique_iff (e : List Record) :
    process_experiment e = Result.rejected "NONUNIQUE" ↔
      check_unique (filtered_mutants_of e) (single_mutants_of e) = false := by
  rw [process_experiment_def]
  by_cases h : check_unique (filtered_mutants_of e) (single_mutants_of e) = false
  · rw [if_pos h]
    simp [h]
  · rw [if_neg h]
    constructor
    · intro hcontra
      exfalso
      split at hcontra
      · injection hcontra with hstr
        exact absurd hstr (by decide)
      · exact Result.noConfusion hcontra
    · intro hfalse
      exact absurd hfalse h

lemma process_resolved_eq (e : List Record) (s n : Finset SampleId)
    (h : process_experiment e = Result.resolved s n) :
    s = single_mutants_of e ∧ n = normal_samples_of e := by
  rw [process_experiment_def] at h
  split at h
  · exact Result.noConfusion h
  · split at h
    · exact Result.noConfusion h
    · injection h with h1 h2
      exact ⟨h1.symm, h2.symm⟩

lemma single_inter_normal (e : List Record) :
    single_mutants_of e ∩ normal_samples_of e = ∅ := by
  rw [Finset.eq_empty_iff_forall_not_mem]
  intro x hx
  rw [Finset.mem_inter] at hx
  obtain ⟨hxs, hxn⟩ := hx
  obtain ⟨t, htl, ht⟩ := (mem_get_single_mutants _ _).mp hxs
  unfold filtered_mutants_of filter_mutants at htl
  rw [List.mem_map] at htl
  obtain ⟨m, _, hmt⟩ := htl
  have hxt : x ∈ t := by
    rw [ht]
    exact Finset.mem_singleton_self x
  rw [← hmt] at hxt
  exact (Finset.mem_sdiff.mp hxt).2 hxn

lemma foldl_ignore {α β : Type _} (f : α → β → α) (b : β) (hb : ∀ a, f a b = a)
    (pre post : List β) (init : α) :
    (pre ++ b :: post).foldl f init = (pre ++ post).foldl f init := by
  simp [List.foldl_append, List.foldl_cons, hb]

lemma foldl_ignore_all {α β : Type _} (f : α → β → α) (l : List β)
    (h : ∀ b ∈ l, ∀ a, f a b = a) :
    ∀ init, l.foldl f init = init := by
  induction l with
  | nil => intro init; rfl
  | cons b l ih =>
    intro init
    rw [List.foldl_cons, h b (List.mem_cons_self b l)]
    exact ih (fun b' hb' a => h b' (List.mem_cons_of_mem _ hb') a) init

lemma normal_foldl_eq (l : List Record) :
    ∀ acc, l.foldl
        (fun acc test_set =>
          if test_set.1 = "NORM" then acc ∪ test_set.2.toFinset else acc) acc =
      acc ∪ normUnion l := by
  induction l with
  | nil =>
    intro acc
    simp [normUnion]
  | cons r l ih =>
    intro acc
    rw [List.foldl_cons]
    by_cases h : r.1 = "NORM"
    · rw [if_pos h, ih]
      unfold normUnion
      rw [List.filter_cons_of_pos (by simpa using h), List.foldr_cons,
        Finset.union_assoc]
    · rw [if_neg h, ih]
      unfold normUnion
      rw [List.filter_cons_of_neg (by simpa using h)]

lemma normal_samples_eq_normUnion (e : List Record) :
    normal_samples_of e = normUnion e := by
  unfold normal_samples_of
  rw [normal_foldl_eq]
  exact Finset.empty_union _

/-- C1: the spec's coverage invariant — on success, normal ∪ single-mutant =
all samples of MUT/NORM records — fails on the code: on the experiment
`MUT{1}, MUT{1,2}` the engine succeeds, returning single mutants `{1}` and an
empty normal set, yet the sample universe is `{1, 2}`: sample `2` is never
accounted for. -/
theorem process_experiment_succeeds_without_full_coverage :
    process_experiment [("MUT", ["1"]), ("MUT", ["1", "2"])] =
        Result.resolved {"1"} ∅ ∧
      ({"1"} : Finset SampleId) ∪ ∅ ≠
        allSamples [("MUT", ["1"]), ("MUT", ["1", "2"])] := by
  constructor
  · decide
  · decide

/-- C2 counterexample: on `MUT{1}, MUT{1,2}` the resolved-set union has
cardinality 1 while the sample universe has cardinality 2, yet the engine
does not fail with NONUNIQUE — it succeeds — so NONUNIQUE is not reported
exactly when the cardinalities differ. -/
theorem nonunique_not_forced_by_count_mismatch :
    (single_mutants_of [("MUT", ["1"]), ("MUT", ["1", "2"])] ∪
          normal_samples_of [("MUT", ["1"]), ("MUT", ["1", "2"])]).card ≠
        (allSamples [("MUT", ["1"]), ("MUT", ["1", "2"])]).card ∧
      process_experiment [("MUT", ["1"]), ("MUT", ["1", "2"])] ≠
        Result.rejected "NONUNIQUE" := by
  constructor
  · decide
  · decide

/-- C2 amended: process_experiment fails with NONUNIQUE exactly when some
filtered mutant set has more than one element left after removing the single
mutants (the condition tested by check_unique); a cardinality mismatch
between normal ∪ single-mutant and the sample universe neither implies nor
is implied by this. -/
theorem nonunique_iff_ambiguous_filtered_set (e : List Record) :
    process_experiment e = Result.rejected "NONUNIQUE" ↔
      ∃ t ∈ filtered_mutants_of e, 1 < (t \ single_mutants_of e).card := by
  rw [process_eq_nonunique_iff, check_unique_eq_false_iff]

/-- C3: the four-record experiment `NORM{0,1}, MUT{1,2}, NORM{1,3},
NORM{2,3}` resolves to the INCONSISTENT failure. -/
theorem scenarioC_inconsistent :
    process_experiment
        [("NORM", ["0", "1"]), ("MUT", ["1", "2"]), ("NORM", ["1", "3"]),
          ("NORM", ["2", "3"])] =
      Result.rejected "INCONSISTENT" := by
  decide

/-- C4: when an experiment triggers both failure conditions — some filtered
mutant set keeps more than one element after removing the single mutants,
and some filtered mutant set is empty — the reported failure is NONUNIQUE:
the uniqueness check runs first. -/
theorem nonunique_precedes_inconsistent (e : List Record)
    (h1 : ∃ t ∈ filtered_mutants_of e, 1 < (t \ single_mutants_of e).card)
    (_h2 : ∃ t ∈ filtered_mutants_of e, t = ∅) :
    process_experiment e = Result.rejected "NONUNIQUE" := by
  rw [process_experiment_def,
    if_pos ((check_unique_eq_false_iff _ _).mpr h1)]

/-- C4 witness: the experiment `MUT{0,1}, MUT{2,3}, NORM{2,3}` has filtered
sets `{0,1}` (ambiguous) and `∅` (inconsistent) and is reported NONUNIQUE. -/
theorem nonunique_precedes_inconsistent_witness :
    process_experiment [("MUT", ["0", "1"]), ("MUT", ["2", "3"]),
        ("NORM", ["2", "3"])] =
      Result.rejected "NONUNIQUE" :=
  nonunique_precedes_inconsistent
    [("MUT", ["0", "1"]), ("MUT", ["2", "3"]), ("NORM", ["2", "3"])]
    (by decide) (by decide)

/-- C5: for an experiment that passes the uniqueness check, the engine fails
with INCONSISTENT exactly when some filtered mutant set is empty. -/
theorem inconsistent_iff_empty_filtered_set (e : List Record)
    (h : check_unique (filtered_mutants_of e) (single_mutants_of e) = true) :
    process_experiment e = Result.rejected "INCONSISTENT" ↔
      ∃ t ∈ filtered_mutants_of e, t = ∅ := by
  rw [process_experiment_def, if_neg (by simp [h]),
    ← check_consistent_eq_false_iff]
  by_cases hc : check_consistent (filtered_mutants_of e) = false
  · rw [if_pos hc]
    simp [hc]
  · rw [if_neg hc]
    constructor
    · intro hcontra
      exact Result.noConfusion hcontra
    · intro hfalse
      exact absurd hfalse hc

/-- C5 witness: the scenario-C experiment passes the uniqueness check and its
INCONSISTENT outcome coincides with an empty filtered mutant set. -/
theorem inconsistent_iff_empty_filtered_set_witness :
    process_experiment
          [("NORM", ["0", "1"]), ("MUT", ["1", "2"]), ("NORM", ["1", "3"]),
            ("NORM", ["2", "3"])] =
        Result.rejected "INCONSISTENT" ↔
      ∃ t ∈ filtered_mutants_of
          [("NORM", ["0", "1"]), ("MUT", ["1", "2"]), ("NORM", ["1", "3"]),
            ("NORM", ["2", "3"])], t = ∅ :=
  inconsistent_iff_empty_filtered_set
    [("NORM", ["0", "1"]), ("MUT", ["1", "2"]), ("NORM", ["1", "3"]),
      ("NORM", ["2", "3"])]
    (by decide)

/-- C6: whenever process_experiment succeeds, the returned single-mutant set
and normal set are disjoint. -/
theorem resolved_sets_disjoint (e : List Record) (s n : Finset SampleId)
    (h : process_experiment e = Result.resolved s n) :
    s ∩ n = ∅ := by
  obtain ⟨hs, hn⟩ := process_resolved_eq e s n h
  subst hs
  subst hn
  exact single_inter_normal e

/-- C6 witness: on `NORM{100,110}, MUT{110,12}` the engine resolves to
single mutants `{12}` and normals `{100,110}`, which are disjoint. -/
theorem resolved_sets_disjoint_witness :
    ({"12"} : Finset SampleId) ∩ {"100", "110"} = ∅ :=
  resolved_sets_disjoint [("NORM", ["100", "110"]), ("MUT", ["110", "12"])]
    {"12"} {"100", "110"} (by decide)

/-- C7: get_single_mutants returns exactly the identifiers x such that some
filtered set equals the singleton \x7bx\x7d; sets of size 0 or of size at
least 2 contribute nothing. (The embedding is pure: the function reads its
input list of sets and cannot mutate it.) -/
theorem get_single_mutants_spec (l : List (Finset SampleId)) (x : SampleId) :
    x ∈ get_single_mutants l ↔ ∃ s ∈ l, s = {x} :=
  mem_get_single_mutants l x

/-- C8: filter_mutants maps each mutant test set to itself minus the normal
set, preserving length and order: the i-th output is the i-th input minus
the normal set, and out-of-range indices stay out of range. (The embedding
is pure: the inputs cannot be mutated.) -/
theorem filter_mutants_spec (l : List (Finset SampleId))
    (n : Finset SampleId) :
    (filter_mutants l n).length = l.length ∧
      ∀ i : Nat, (filter_mutants l n)[i]? = Option.map (fun t => t \ n) l[i]? := by
  constructor
  · simp [filter_mutants]
  · intro i
    simp [filter_mutants]

/-- C9: a record whose state token is neither "MUT" nor "NORM" contributes
nothing: removing it from an experiment leaves the result of
process_experiment unchanged. -/
theorem unknown_state_records_ignored (pre post : List Record) (r : Record)
    (h1 : r.1 ≠ "MUT") (h2 : r.1 ≠ "NORM") :
    process_experiment (pre ++ r :: post) = process_experiment (pre ++ post) := by
  have hn : normal_samples_of (pre ++ r :: post) =
      normal_samples_of (pre ++ post) := by
    unfold normal_samples_of
    exact foldl_ignore
      (fun acc test_set =>
        if test_set.1 = "NORM" then acc ∪ test_set.2.toFinset else acc)
      r (fun a => if_neg h2) pre post ∅
  have hm : mutant_sample_sets_of (pre ++ r :: post) =
      mutant_sample_sets_of (pre ++ post) := by
    unfold mutant_sample_sets_of
    exact foldl_ignore
      (fun acc test_set =>
        if test_set.1 = "MUT" then acc ++ [test_set.2.toFinset] else acc)
      r (fun a => if_neg h1) pre post []
  rw [process_experiment_def, process_experiment_def]
  unfold single_mutants_of filtered_mutants_of
  rw [hn, hm]

/-- C9 witness: inserting the unrecognized record `XYZ,9` into `NORM,1`
leaves the result unchanged. -/
theorem unknown_state_records_ignored_witness :
    process_experiment [("NORM", ["1"]), ("XYZ", ["9"])] =
      process_experiment [("NORM", ["1"])] :=
  unknown_state_records_ignored [("NORM", ["1"])] [] ("XYZ", ["9"])
    (by decide) (by decide)

/-- C10: an experiment with no MUT-state record always succeeds, with an
empty single-mutant set and a normal set equal to the union of the samples
of its NORM-state records. -/
theorem no_mut_records_succeeds (e : List Record)
    (h : ∀ r ∈ e, r.1 ≠ "MUT") :
    process_experiment e = Result.resolved ∅ (normal_samples_of e) ∧
      normal_samples_of e = normUnion e := by
  refine ⟨?_, normal_samples_eq_normUnion e⟩
  have hm : mutant_sample_sets_of e = [] := by
    unfold mutant_sample_sets_of
    exact foldl_ignore_all _ e (fun b hb a => if_neg (h b hb)) []
  have hf : filtered_mutants_of e = [] := by
    unfold filtered_mutants_of filter_mutants
    rw [hm]
    rfl
  have hs : single_mutants_of e = ∅ := by
    unfold single_mutants_of
    rw [hf]
    rfl
  rw [process_experiment_def, hf, hs]
  simp [check_unique, check_consistent]

/-- C10 witness: `NORM{0,1}, NORM{1,2}` (no MUT records) succeeds with an
empty mutant set and normals equal to the union of the NORM samples. -/
theorem no_mut_records_succeeds_witness :
    process_experiment [("NORM", ["0", "1"]), ("NORM", ["1", "2"])] =
        Result.resolved ∅
          (normal_samples_of [("NORM", ["0", "1"]), ("NORM", ["1", "2"])]) ∧
      normal_samples_of [("NORM", ["0", "1"]), ("NORM", ["1", "2"])] =
        normUnion [("NORM", ["0", "1"]), ("NORM", ["1", "2"])] :=
  no_mut_records_succeeds [("NORM", ["0", "1"]), ("NORM", ["1", "2"])]
    (by decide)

/-- Fidelity check against the source's unit-test fixture (scenario A). -/
lemma fixture_scenarioA :
    process_experiment
        [("NORM", ["0", "1"]), ("NORM", ["1", "2"]), ("NORM", ["0", "2"])] =
      Result.resolved ∅ {"1", "0", "2"} := by
  decide

/-- Fidelity check against the source's unit-test fixture (scenario B). -/
lemma fixture_scenarioB :
    process_experiment [("NORM", ["100", "110"]), ("MUT", ["110", "12"])] =
      Result.resolved {"12"} {"100", "110"} := by
  decide

/-- Fidelity check against the source's unit-test fixture (scenario D). -/
lemma fixture_scenarioD :
    process_experiment [("MUT", ["0", "1"]), ("MUT", ["1", "2"])] =
      Result.rejected "NONUNIQUE" := by
  decide

end Genotype
